import Mathlib

/-!
Verification development for the podcast transcription pipeline.

Shallow embedding of:
- `src/whisper-lambda/lambda/handler.py` (`transcribe_audio_with_retry`),
- `src/merge-transcript-lambda/lambda/handler.py` (`merge_transcripts`, `lambda_handler`),
- `src/server/app/services/orchestration_service.py` (`transcribe_episode`,
  `_transcribe_chunks_parallel`),
- `src/server/app/services/bulk_transcribe_service.py` (`process_job`, `cancel_job`),
- `src/server/app/routes/transcription.py` (`start_transcription`, `retry_transcription`).

Conventions: Python dict `.get(key)` lookups are modelled as `Option` fields;
`.get(key, default)` as `Option.getD`; Python string truthiness as `s != ""`;
raised exceptions as `Except.error` carrying `str(e)`; time-of-day stamps
(`datetime.utcnow()`) are elided since no property refers to them; `time.sleep`
is modelled by accumulating the requested sleep durations.  Remote collaborators
(HTTP services, S3, MongoDB) are modelled as explicit environments, and side
effects (DB writes, uploads, which collaborators were invoked) are returned as
part of each function's result.
-/

set_option maxHeartbeats 1000000

namespace WhisperLambda

/-- `MAX_RETRIES = 3` from `src/whisper-lambda/lambda/handler.py`. -/
def MAX_RETRIES : Nat := 3

/-- `INITIAL_RETRY_DELAY = 1` (seconds) from `src/whisper-lambda/lambda/handler.py`. -/
def INITIAL_RETRY_DELAY : Nat := 1

/-- Does `pat` occur at the head of the second list? -/
def listLead : List Nat → List Nat → Bool
  | [], _ => true
  | _ :: _, [] => false
  | a :: as, b :: bs => a == b && listLead as bs

/-- Does `pat` occur anywhere in the second list (Python `pat in s`)? -/
def listHasSub (pat : List Nat) : List Nat → Bool
  | [] => pat.isEmpty
  | b :: bs => listLead pat (b :: bs) || listHasSub pat bs

/-- The code points of a string. -/
def strCodes (s : String) : List Nat :=
  s.toList.map Char.toNat

/-- ASCII lower-casing of one code point (Python `str.lower` on the ASCII
error markers involved here). -/
def lowerCode (n : Nat) : Nat :=
  if 65 ≤ n ∧ n ≤ 90 then n + 32 else n

/-- Python `needle in haystack` substring test. -/
def strContainsSub (haystack needle : String) : Bool :=
  listHasSub (strCodes needle) (strCodes haystack)

/-- Python `needle in haystack.lower()` substring test. -/
def strContainsSubLower (haystack needle : String) : Bool :=
  listHasSub (strCodes needle) ((strCodes haystack).map lowerCode)

/-- Error classification of `transcribe_audio_with_retry`'s except-branch:
`"rate_limit" in msg.lower() or "429" in msg`, else
`"timeout" in msg.lower() or "503" in msg`; both retryable branches sleep and
double the delay identically, anything else is fatal. -/
def isRetryableError (msg : String) : Bool :=
  (strContainsSubLower msg "rate_limit" || strContainsSub msg "429") ||
    (strContainsSubLower msg "timeout" || strContainsSub msg "503")

/-- Outcome of one attempt of the wrapped transcription call: the call either
returns a transcript or raises an exception with message `msg`. -/
inductive AttemptOutcome where
  | success (transcript : String)
  | failure (msg : String)
deriving DecidableEq

/-- Result of running the retry wrapper: the value returned (or the exception
re-raised), the total seconds slept across retries, and how many attempts were
consumed. -/
structure RetryResult where
  result : Except String String
  totalSleep : Nat
  attemptsMade : Nat

/-- The `for attempt in range(max_retries + 1)` loop of
`transcribe_audio_with_retry`, starting at attempt `attemptIdx` with current
backoff `delay` and `slept` seconds already slept; the last argument is the
number of loop iterations still available after the current one
(`max_retries - attemptIdx`), so `attempt < max_retries` is the `r + 1` case. -/
def retryFrom (att : Nat → AttemptOutcome) (attemptIdx delay slept : Nat) :
    Nat → RetryResult
  | 0 =>
    match att attemptIdx with
    | .success t => ⟨.ok t, slept, attemptIdx + 1⟩
    | .failure msg => ⟨.error msg, slept, attemptIdx + 1⟩
  | r + 1 =>
    match att attemptIdx with
    | .success t => ⟨.ok t, slept, attemptIdx + 1⟩
    | .failure msg =>
      if isRetryableError msg then
        retryFrom att (attemptIdx + 1) (delay * 2) (slept + delay) r
      else
        ⟨.error msg, slept, attemptIdx + 1⟩

/-- `transcribe_audio_with_retry(audio_path, max_retries)`: the attempt
outcomes of the wrapped call are abstracted as `att`; the code fixes
`initialDelay := INITIAL_RETRY_DELAY`, kept as a parameter here. -/
def transcribe_audio_with_retry (att : Nat → AttemptOutcome)
    (max_retries initialDelay : Nat) : RetryResult :=
  retryFrom att 0 initialDelay 0 max_retries

theorem geom_step (d : Nat) (j : Nat) :
    d + d * 2 * (2 ^ j - 1) = d * (2 ^ (j + 1) - 1) := by
  obtain ⟨y, hy⟩ : ∃ y, 2 ^ j = y + 1 :=
    ⟨2 ^ j - 1, by have := Nat.one_le_two_pow (n := j); omega⟩
  have h2 : 2 ^ (j + 1) - 1 = 2 * y + 1 := by rw [pow_succ, hy]; omega
  rw [hy, h2, Nat.add_sub_cancel]
  ring

theorem sum_geom (d : Nat) : ∀ n, (∑ i in Finset.range n, d * 2 ^ i) = d * (2 ^ n - 1)
  | 0 => by simp
  | n + 1 => by
    rw [Finset.sum_range_succ, sum_geom d n]
    obtain ⟨y, hy⟩ : ∃ y, 2 ^ n = y + 1 :=
      ⟨2 ^ n - 1, by have := Nat.one_le_two_pow (n := n); omega⟩
    have h2 : 2 ^ (n + 1) - 1 = 2 * y + 1 := by rw [pow_succ, hy]; omega
    rw [hy, h2, Nat.add_sub_cancel]
    ring

theorem retryFrom_ok (att : Nat → AttemptOutcome) (t : String) :
    ∀ (j k delay slept r : Nat), j ≤ r →
      (∀ a, a < j → ∃ msg, att (k + a) = .failure msg ∧ isRetryableError msg = true) →
      att (k + j) = .success t →
      retryFrom att k delay slept r = ⟨.ok t, slept + delay * (2 ^ j - 1), k + j + 1⟩
  | 0, k, delay, slept, r, _hj, _hfail, hsucc => by
    have hk : att k = .success t := by simpa using hsucc
    cases r with
    | zero => simp [retryFrom, hk]
    | succ r => simp [retryFrom, hk]
  | j + 1, k, delay, slept, r, hj, hfail, hsucc => by
    obtain ⟨msg, hmsg, hret⟩ := hfail 0 (Nat.succ_pos j)
    have hk : att k = .failure msg := by simpa using hmsg
    cases r with
    | zero => omega
    | succ r' =>
      have step :
          retryFrom att k delay slept (r' + 1) =
            retryFrom att (k + 1) (delay * 2) (slept + delay) r' := by
        simp [retryFrom, hk, hret]
      rw [step]
      have ih := retryFrom_ok att t j (k + 1) (delay * 2) (slept + delay) r'
        (by omega)
        (fun a ha => by
          obtain ⟨m, hm, hrm⟩ := hfail (a + 1) (by omega)
          exact ⟨m, by rw [show k + 1 + a = k + (a + 1) by omega]; exact hm, hrm⟩)
        (by rw [show k + 1 + j = k + (j + 1) by omega]; exact hsucc)
      rw [ih]
      have hsleep : slept + delay + delay * 2 * (2 ^ j - 1) =
          slept + delay * (2 ^ (j + 1) - 1) := by
        have := geom_step delay j
        omega
      have hcount : k + 1 + j + 1 = k + (j + 1) + 1 := by omega
      rw [hsleep, hcount]

/-- C3: if attempts `1..m-1` (one-based) each fail with a retryable error and
attempt `m` succeeds, with `m` at most the configured maximum number of
attempts (`max_retries + 1` total attempts), then the retry wrapper returns
the success result, and the total time slept is
`initialDelay * (2^0 + ... + 2^(m-2))` — i.e. the sleep inserted after the
failed zero-based attempt `a` is `initialDelay * 2^a`. -/
theorem retry_success_backoff_sum (att : Nat → AttemptOutcome)
    (max_retries initialDelay m : Nat) (t : String)
    (hm1 : 1 ≤ m) (hm2 : m ≤ max_retries + 1)
    (hfail : ∀ a, a < m - 1 → ∃ msg, att a = .failure msg ∧ isRetryableError msg = true)
    (hsucc : att (m - 1) = .success t) :
    transcribe_audio_with_retry att max_retries initialDelay =
      ⟨.ok t, ∑ i in Finset.range (m - 1), initialDelay * 2 ^ i, m⟩ := by
  have h := retryFrom_ok att t (m - 1) 0 initialDelay 0 max_retries
    (by omega)
    (fun a ha => by simpa using hfail a ha)
    (by simpa using hsucc)
  rw [transcribe_audio_with_retry, h, sum_geom]
  have : 0 + (m - 1) + 1 = m := by omega
  rw [Nat.zero_add, this]

/-- Attempt sequence for the C3 witness: the first two attempts raise a
rate-limit error, the third succeeds. -/
def c3Attempts : Nat → AttemptOutcome := fun a =>
  if a < 2 then .failure "Error code: 429 - rate_limit_exceeded" else .success "hello world"

theorem retry_success_backoff_sum_witness :
    transcribe_audio_with_retry c3Attempts MAX_RETRIES INITIAL_RETRY_DELAY =
      ⟨.ok "hello world", ∑ i in Finset.range 2, INITIAL_RETRY_DELAY * 2 ^ i, 3⟩ :=
  retry_success_backoff_sum c3Attempts MAX_RETRIES INITIAL_RETRY_DELAY 3 "hello world"
    (by decide) (by decide)
    (fun a ha => ⟨"Error code: 429 - rate_limit_exceeded",
      by have h2 : a < 2 := ha; simp [c3Attempts, h2], rfl⟩)
    rfl

/-- C7: a non-retryable (fatal) error on the first attempt consumes exactly one
attempt in total: the exception is re-raised immediately, with no sleep and no
further attempts. -/
theorem retry_fatal_first_attempt (att : Nat → AttemptOutcome)
    (max_retries initialDelay : Nat) (msg : String)
    (h0 : att 0 = .failure msg) (hfatal : isRetryableError msg = false) :
    transcribe_audio_with_retry att max_retries initialDelay =
      ⟨.error msg, 0, 1⟩ := by
  cases max_retries with
  | zero => simp [transcribe_audio_with_retry, retryFrom, h0]
  | succ r => simp [transcribe_audio_with_retry, retryFrom, h0, hfatal]

theorem retry_fatal_first_attempt_witness :
    transcribe_audio_with_retry (fun _ => .failure "Invalid file format") MAX_RETRIES
      INITIAL_RETRY_DELAY = ⟨.error "Invalid file format", 0, 1⟩ :=
  retry_fatal_first_attempt (fun _ => .failure "Invalid file format") MAX_RETRIES
    INITIAL_RETRY_DELAY "Invalid file format" rfl rfl

end WhisperLambda

namespace MergeLambda

/-- Python truthiness of an optional string (`None` and `""` are falsy). -/
def truthyOptStr : Option String → Bool
  | none => false
  | some s => s ≠ ""

/-- One entry of the `transcripts` list of a merge request
(`chunk_index`, `transcript_s3_key`, `start_time_seconds`); these keys are
accessed with `[...]`/`.get` by the handler and are present in every request
the orchestrator builds. -/
structure TranscriptMeta where
  chunk_index : Nat
  transcript_s3_key : String
  start_time_seconds : Int
deriving DecidableEq

/-- Drop leading whitespace characters. -/
def dropLeadWs : List Char → List Char
  | [] => []
  | c :: cs => if c.isWhitespace then dropLeadWs cs else c :: cs

/-- Python `s.strip()`. -/
def pyStrip (s : String) : String :=
  String.mk ((dropLeadWs (dropLeadWs s.toList).reverse).reverse)

/-- Count maximal whitespace-free runs; `len(s.split())` in Python. -/
def countWordsAux : Bool → List Char → Nat
  | _, [] => 0
  | inWord, c :: cs =>
    if c.isWhitespace then countWordsAux false cs
    else (if inWord then 0 else 1) + countWordsAux true cs

/-- Python `len(text.split())`. -/
def countWords (s : String) : Nat :=
  countWordsAux false s.toList

/-- Zero-pad to two digits, Python `f"{n:02d}"` for the non-negative values
produced here. -/
def pad2 (n : Int) : String :=
  if 0 ≤ n ∧ n < 10 then "0" ++ toString n else toString n

/-- `format_timestamp(seconds)`: `[HH:MM:SS]`; Python `//` is floor division
and `%` returns a value in `[0, divisor)`, matched by `Int.fdiv`/`Int.emod`. -/
def format_timestamp (seconds : Int) : String :=
  "[" ++ pad2 (seconds.fdiv 3600) ++ ":" ++ pad2 ((seconds.emod 3600).fdiv 60) ++
    ":" ++ pad2 (seconds.emod 60) ++ "]"

/-- The `for transcript_meta in transcripts` loop of `merge_transcripts`:
`store` models a successful S3 read of each referenced transcript chunk's
`text` field; returns the accumulated `merged_text_parts` and word count.
`last` is `last_timestamp_seconds`. -/
def mergeLoop (store : String → String) (add_timestamps : Bool) :
    List TranscriptMeta → Int → List String × Nat
  | [], _last => ([], 0)
  | t :: rest, last =>
    let text := pyStrip (store t.transcript_s3_key)
    if text = "" then
      mergeLoop store add_timestamps rest last
    else
      let stamped := add_timestamps && decide (300 ≤ t.start_time_seconds - last)
      let newLast := if stamped then t.start_time_seconds else last
      let tail := mergeLoop store add_timestamps rest newLast
      ((if stamped then ["\n" ++ format_timestamp t.start_time_seconds ++ "\n"] else []) ++
        (text :: "\n\n" :: tail.1),
        countWords text + tail.2)

/-- `merge_transcripts(transcripts, s3_bucket, add_timestamps)`: merged text
(joined parts, stripped) and total word count; `last_timestamp_seconds`
starts at `-300` to force a timestamp at the beginning. -/
def merge_transcripts (store : String → String) (transcripts : List TranscriptMeta)
    (add_timestamps : Bool) : String × Nat :=
  let r := mergeLoop store add_timestamps transcripts (-300)
  (pyStrip (String.join r.1), r.2)

/-- The merge request event: `episode_id`, `total_chunks`, `transcripts`,
and `s3_bucket` (the event value or the `S3_BUCKET` environment default). -/
structure MergeEvent where
  episode_id : String
  total_chunks : Option Nat
  transcripts : List TranscriptMeta
  s3_bucket : Option String
deriving DecidableEq

/-- The JSON body returned by the merge lambda. -/
structure MergeLambdaResponse where
  episode_id : String
  status : String
  transcript_s3_key : Option String := none
  total_words : Option Nat := none
  error_message : Option String := none
deriving DecidableEq

/-- Handler result: the response plus the text uploaded to
`transcripts/{episode_id}/final.txt` (`none` when no upload happened). -/
structure MergeOutcome where
  response : MergeLambdaResponse
  uploadedText : Option String := none
deriving DecidableEq

/-- Key order used by `sorted(transcripts, key=lambda x: x['chunk_index'])`. -/
def leIdx (a b : TranscriptMeta) : Prop :=
  a.chunk_index ≤ b.chunk_index

/-- Strict version of `leIdx`, used to identify the sorted list. -/
def ltIdx (a b : TranscriptMeta) : Prop :=
  a.chunk_index < b.chunk_index

instance : DecidableRel leIdx := fun a b => Nat.decLe a.chunk_index b.chunk_index

instance : IsTotal TranscriptMeta leIdx := ⟨fun a b => Nat.le_total a.chunk_index b.chunk_index⟩

instance : IsTrans TranscriptMeta leIdx := ⟨fun _ _ _ => Nat.le_trans⟩

instance : IsAntisymm TranscriptMeta ltIdx :=
  ⟨fun _ _ h1 h2 => absurd (Nat.lt_trans h1 h2) (Nat.lt_irrefl _)⟩

/-- `sorted(transcripts, key=lambda x: x['chunk_index'])` (a stable sort). -/
def sortByChunkIndex (ts : List TranscriptMeta) : List TranscriptMeta :=
  List.insertionSort leIdx ts

/-- `set(range(len(sorted_transcripts))) - set(t['chunk_index'] for t in
sorted_transcripts)`, listed in ascending order as `sorted(missing_indices)`
would produce. Note the code compares against `range(len(...))`, not
`range(total_chunks)`. -/
def missingIndices (sortedTs : List TranscriptMeta) : List Nat :=
  (List.range sortedTs.length).filter (fun i => sortedTs.all (fun t => t.chunk_index != i))

/-- Python `repr` of a list of ints, as interpolated into the error message. -/
def pyNatListRepr (l : List Nat) : String :=
  "[" ++ String.intercalate ", " (l.map toString) ++ "]"

/-- `lambda_handler` of the merge lambda. `store` models successful S3 reads
(the `text` field of each chunk transcript JSON); the S3 upload and the
MongoDB status write are reported through `MergeOutcome.uploadedText`.
The `total_chunks` count-mismatch branch only logs a warning. -/
def lambda_handler (store : String → String) (event : MergeEvent) : MergeOutcome :=
  if event.episode_id = "" then
    ⟨⟨event.episode_id, "error", none, none, some "Missing required parameter: episode_id"⟩, none⟩
  else if event.transcripts.isEmpty then
    ⟨⟨event.episode_id, "error", none, none, some "No transcripts provided"⟩, none⟩
  else if truthyOptStr event.s3_bucket = false then
    ⟨⟨event.episode_id, "error", none, none,
      some "S3 bucket not specified in event or environment variables"⟩, none⟩
  else
    let sortedTs := sortByChunkIndex event.transcripts
    let missing := missingIndices sortedTs
    if missing.isEmpty then
      let mt := merge_transcripts store sortedTs true
      ⟨⟨event.episode_id, "completed", some ("transcripts/" ++ event.episode_id ++ "/final.txt"),
        some mt.2, none⟩, some mt.1⟩
    else
      ⟨⟨event.episode_id, "error", none, none,
        some ("Missing chunks: " ++ pyNatListRepr missing)⟩, none⟩

end MergeLambda

namespace MergeLambda

/-- C4 failing input: the unit has `total_chunks = 2` but only chunk `0` is
presented; the index set `{0}` is not the contiguous range `[0, 2)`. -/
def c4Event : MergeEvent :=
  { episode_id := "ep1", total_chunks := some 2,
    transcripts := [⟨0, "transcripts/ep1/chunk_0.json", 0⟩],
    s3_bucket := some "podcast-audio" }

/-- C4: the merge handler checks indices against `range(len(transcripts))`,
not against the unit's `total_chunks`; a request missing a suffix chunk
(indices `{0}` with `total_chunks = 2`) is merged and returned as
`"completed"` — the count mismatch only logs a warning — contradicting the
requirement to reject any index set other than `[0, total_chunks)`. -/
theorem merge_accepts_missing_suffix_chunk :
    (lambda_handler (fun _ => "hello world") c4Event).response.status = "completed" ∧
    (lambda_handler (fun _ => "hello world") c4Event).uploadedText.isSome = true ∧
    c4Event.transcripts.map TranscriptMeta.chunk_index = [0] ∧
    c4Event.total_chunks = some 2 :=
  ⟨rfl, rfl, rfl, rfl⟩

theorem map_chunk_index_ascending (ordered : List TranscriptMeta) (N : Nat)
    (hlen : ordered.length = N)
    (hidx : ∀ i (h : i < ordered.length), (ordered.get ⟨i, h⟩).chunk_index = i) :
    ordered.map TranscriptMeta.chunk_index = List.range N := by
  apply List.ext_get
  · simp [hlen]
  · intro i h1 h2
    have hi : i < ordered.length := by simpa using h1
    simp only [List.get_eq_getElem, List.getElem_map, List.getElem_range]
    exact hidx i hi

theorem sorted_lt_ascending (ordered : List TranscriptMeta)
    (hidx : ∀ i (h : i < ordered.length), (ordered.get ⟨i, h⟩).chunk_index = i) :
    List.Sorted ltIdx ordered := by
  rw [List.Sorted, List.pairwise_iff_get]
  intro i j hij
  show (ordered.get i).chunk_index < (ordered.get j).chunk_index
  rw [hidx i i.isLt, hidx j j.isLt]
  exact hij

theorem sortByChunkIndex_eq_ascending (ordered ts : List TranscriptMeta) (N : Nat)
    (hlen : ordered.length = N)
    (hidx : ∀ i (h : i < ordered.length), (ordered.get ⟨i, h⟩).chunk_index = i)
    (hperm : ts.Perm ordered) :
    sortByChunkIndex ts = ordered := by
  have hperm2 : (sortByChunkIndex ts).Perm ordered :=
    (List.perm_insertionSort leIdx ts).trans hperm
  have hle : List.Sorted leIdx (sortByChunkIndex ts) :=
    List.sorted_insertionSort leIdx ts
  have hmap : ordered.map TranscriptMeta.chunk_index = List.range N :=
    map_chunk_index_ascending ordered N hlen hidx
  have hnd : ((sortByChunkIndex ts).map TranscriptMeta.chunk_index).Nodup := by
    have hpm : ((sortByChunkIndex ts).map TranscriptMeta.chunk_index).Perm (List.range N) := by
      rw [← hmap]
      exact hperm2.map _
    exact hpm.nodup_iff.mpr (List.nodup_range N)
  have hne : (sortByChunkIndex ts).Pairwise
      (fun a b => a.chunk_index ≠ b.chunk_index) := by
    rw [List.Nodup] at hnd
    exact List.pairwise_map.mp hnd
  have hlt : List.Sorted ltIdx (sortByChunkIndex ts) := by
    rw [List.Sorted] at hle ⊢
    exact (hle.and hne).imp (fun h => lt_of_le_of_ne h.1 h.2)
  exact List.eq_of_perm_of_sorted hperm2 hlt (sorted_lt_ascending ordered hidx)

theorem missingIndices_ascending (ordered : List TranscriptMeta)
    (hidx : ∀ i (h : i < ordered.length), (ordered.get ⟨i, h⟩).chunk_index = i) :
    missingIndices ordered = [] := by
  rw [missingIndices, List.filter_eq_nil_iff]
  intro i hi
  have hiN : i < ordered.length := List.mem_range.mp hi
  intro hall
  have hmem : ordered.get ⟨i, hiN⟩ ∈ ordered := ordered.get_mem i hiN
  have := List.all_eq_true.mp hall _ hmem
  rw [hidx i hiN] at this
  simp at this

/-- C8: for a unit whose `N ≥ 1` segments all transcribed successfully, the
merge handler's output is determined by the ascending-chunk-index ordering
`ordered` (position `i` holds chunk index `i`): for ANY arrival order `ts`
(any permutation of `ordered`, modelling arbitrary completion order of the
parallel transcribe stage), the handler succeeds and uploads the transcript
merged in ascending chunk-index order, with its word count. -/
theorem merge_result_sorted_by_chunk_index (store : String → String)
    (eid bucket : String) (tc : Option Nat) (ordered ts : List TranscriptMeta) (N : Nat)
    (hN : 1 ≤ N) (hlen : ordered.length = N)
    (hidx : ∀ i (h : i < ordered.length), (ordered.get ⟨i, h⟩).chunk_index = i)
    (hperm : ts.Perm ordered)
    (heid : eid ≠ "") (hbucket : bucket ≠ "") :
    lambda_handler store ⟨eid, tc, ts, some bucket⟩ =
      ⟨⟨eid, "completed", some ("transcripts/" ++ eid ++ "/final.txt"),
        some (merge_transcripts store ordered true).2, none⟩,
        some (merge_transcripts store ordered true).1⟩ := by
  have hsort : sortByChunkIndex ts = ordered :=
    sortByChunkIndex_eq_ascending ordered ts N hlen hidx hperm
  have hts : ts.isEmpty = false := by
    have hl : ts.length = N := by rw [hperm.length_eq, hlen]
    cases ts with
    | nil => simp at hl; omega
    | cons a l => rfl
  rw [lambda_handler]
  simp only [hsort, hts, truthyOptStr, missingIndices_ascending ordered hidx,
    List.isEmpty_nil, Bool.false_eq_true, if_false, if_neg heid]
  simp [hbucket]

end MergeLambda

namespace MergeLambda

/-- Store for the C8 witness (S3 contents of the two chunk transcripts). -/
def c8Store : String → String := fun k =>
  if k = "t0" then "hello there" else "general kenobi"

/-- C8 witness unit in ascending chunk-index order. -/
def c8Ordered : List TranscriptMeta := [⟨0, "t0", 0⟩, ⟨1, "t1", 1200⟩]

/-- C8 witness arrival order: chunk 1 completed before chunk 0. -/
def c8Ts : List TranscriptMeta := [⟨1, "t1", 1200⟩, ⟨0, "t0", 0⟩]

theorem merge_result_sorted_by_chunk_index_witness :
    lambda_handler c8Store ⟨"ep", some 2, c8Ts, some "bucket"⟩ =
      ⟨⟨"ep", "completed", some ("transcripts/" ++ "ep" ++ "/final.txt"),
        some (merge_transcripts c8Store c8Ordered true).2, none⟩,
        some (merge_transcripts c8Store c8Ordered true).1⟩ :=
  merge_result_sorted_by_chunk_index c8Store "ep" "bucket" (some 2) c8Ordered c8Ts 2
    (by decide) rfl
    (fun i h => by
      match i with
      | 0 => rfl
      | 1 => rfl
      | n + 2 => simp [c8Ordered] at h)
    (List.Perm.swap _ _ _)
    (by decide) (by decide)

end MergeLambda

namespace Orchestration

/-- One segment descriptor returned by the chunking service
(`chunk_index`, `s3_key`, `start_time_seconds`, read with `.get`). -/
structure Chunk where
  chunk_index : Option Nat
  s3_key : Option String
  start_time_seconds : Option Int
deriving DecidableEq

/-- The chunking service's JSON body: the `error` key (present or absent),
`chunks` (default `[]`) and `total_chunks` (default `len(chunks)`). -/
structure ChunkResponse where
  error : Option String
  chunks : List Chunk
  total_chunks : Option Nat
deriving DecidableEq

/-- A transcription-stage segment result (either the whisper service's JSON
body or the locally built exception record); all keys are read with `.get`. -/
structure TranscriptionResult where
  episode_id : Option String := none
  chunk_index : Option Nat := none
  status : Option String := none
  transcript_s3_key : Option String := none
  start_time_seconds : Option Int := none
  text_preview : Option String := none
  error_message : Option String := none
deriving DecidableEq

/-- One entry of the merge request's `transcripts` list as built by
`_call_merge_lambda`. -/
structure MergeEntry where
  chunk_index : Option Nat
  transcript_s3_key : Option String
  start_time_seconds : Int
deriving DecidableEq

/-- The merge request payload built by `_call_merge_lambda`. -/
structure MergePayload where
  episode_id : String
  total_chunks : Nat
  transcripts : List MergeEntry
  s3_bucket : String
deriving DecidableEq

/-- The merge service's JSON body as read by the orchestrator. -/
structure MergeResponse where
  status : Option String := none
  error_message : Option String := none
  transcript_s3_key : Option String := none
  total_words : Option Nat := none
deriving DecidableEq

/-- The orchestrator's collaborators: the chunking call's outcome (an
`Except.error` is a raised `httpx` exception), the per-chunk whisper call,
and the merge call; plus the configured audio bucket. -/
structure OrchEnv where
  s3_audio_bucket : String
  chunking : Except String ChunkResponse
  whisper : Chunk → Except String TranscriptionResult
  merge : MergePayload → Except String MergeResponse

/-- One `$set` update of the episode document. -/
structure DbWrite where
  transcript_status : String
  error_message : Option String := none
  transcript_s3_key : Option String := none
  total_words : Option Nat := none
deriving DecidableEq

/-- The dict returned by `transcribe_episode`. -/
structure PipelineResult where
  status : String
  episode_id : String
  transcript_s3_key : Option String := none
  total_words : Option Nat := none
  total_chunks : Option Nat := none
  error_message : Option String := none
deriving DecidableEq

/-- `transcribe_episode`'s return value plus its observable side effects:
episode-document writes and whether each downstream collaborator was
invoked. -/
structure PipelineOutcome where
  result : PipelineResult
  dbWrites : List DbWrite
  whisperInvoked : Bool
  mergeInvoked : Bool
deriving DecidableEq

/-- The `except` branch of `transcribe_episode`: write the `failed` status
with the exception's message and return the failure dict. -/
def failOutcome (episode_id msg : String) (w m : Bool) : PipelineOutcome :=
  { result := { status := "failed", episode_id := episode_id, error_message := some msg },
    dbWrites := [{ transcript_status := "processing" },
      { transcript_status := "failed", error_message := some msg }],
    whisperInvoked := w, mergeInvoked := m }

/-- The error record `_transcribe_chunks_parallel` builds for a task that
raised: the chunk's `chunk_index` (or its position `i` when absent),
status `"error"`, and `str(exception)` as the message. -/
def exceptionRecord (episode_id : String) (c : Chunk) (i : Nat) (e : String) :
    TranscriptionResult :=
  { episode_id := some episode_id, chunk_index := some (c.chunk_index.getD i),
    status := some "error", error_message := some e }

/-- `_transcribe_chunks_parallel` from position `i` on: `asyncio.gather`
with `return_exceptions=True` keeps results in task order (position `i`
holds chunk `i`'s outcome regardless of completion order), and the
`enumerate` loop replaces a raised exception by its error record. -/
def transcribeChunksFrom (whisper : Chunk → Except String TranscriptionResult)
    (episode_id : String) : Nat → List Chunk → List TranscriptionResult
  | _, [] => []
  | i, c :: cs =>
    (match whisper c with
      | .ok r => r
      | .error e => exceptionRecord episode_id c i e) ::
      transcribeChunksFrom whisper episode_id (i + 1) cs

/-- `_transcribe_chunks_parallel(episode_id, chunks)`. -/
def transcribe_chunks_parallel (whisper : Chunk → Except String TranscriptionResult)
    (episode_id : String) (chunks : List Chunk) : List TranscriptionResult :=
  transcribeChunksFrom whisper episode_id 0 chunks

/-- Python `repr` of a possibly-missing chunk index, as interpolated into
the transcription-failure message. -/
def pyOptNatRepr : Option Nat → String
  | some n => toString n
  | none => "None"

/-- Python `repr` of the failed-indices list. -/
def pyOptNatListRepr (l : List (Option Nat)) : String :=
  "[" ++ String.intercalate ", " (l.map pyOptNatRepr) ++ "]"

/-- f-string rendering of a possibly-`None` string. -/
def pyOptStrRepr : Option String → String
  | some s => s
  | none => "None"

/-- The success tail of `transcribe_episode`: write the `completed` status
with the final transcript key and word count, and return the success dict. -/
def successOutcome (episode_id : String) (total_chunks : Nat) (mr : MergeResponse) :
    PipelineOutcome :=
  { result :=
      { status := "completed", episode_id := episode_id,
        transcript_s3_key := mr.transcript_s3_key,
        total_words := some (mr.total_words.getD 0),
        total_chunks := some total_chunks },
    dbWrites :=
      [{ transcript_status := "processing" },
       { transcript_status := "completed",
         transcript_s3_key := mr.transcript_s3_key,
         total_words := some (mr.total_words.getD 0) }],
    whisperInvoked := true, mergeInvoked := true }

/-- One merge-payload entry as built by `_call_merge_lambda` from a
successful segment result. -/
def mergeEntryOf (r : TranscriptionResult) : MergeEntry :=
  { chunk_index := r.chunk_index, transcript_s3_key := r.transcript_s3_key,
    start_time_seconds := r.start_time_seconds.getD 0 }

/-- `transcribe_episode(episode_id, audio_url)`: chunk, transcribe in
parallel, merge; any raised exception lands in the `except` branch
(`failOutcome`). The audio URL only flows into the abstracted chunking
call. -/
def transcribe_episode (env : OrchEnv) (episode_id _audio_url : String) : PipelineOutcome :=
  match env.chunking with
  | .error e => failOutcome episode_id e false false
  | .ok resp =>
    match resp.error with
    | some msg => failOutcome episode_id ("Chunking failed: " ++ msg) false false
    | none =>
      let chunks := resp.chunks
      let total_chunks := resp.total_chunks.getD chunks.length
      if chunks.isEmpty then
        failOutcome episode_id "No chunks returned from chunking service" false false
      else
        let results := transcribe_chunks_parallel env.whisper episode_id chunks
        let failed := results.filter (fun r => r.status == some "error")
        if failed.isEmpty then
          let transcripts := (results.filter (fun r =>
              r.status == some "success" && MergeLambda.truthyOptStr r.transcript_s3_key)).map
            mergeEntryOf
          match env.merge ⟨episode_id, total_chunks, transcripts, env.s3_audio_bucket⟩ with
          | .error e => failOutcome episode_id e true true
          | .ok mr =>
            if mr.status == some "error" then
              failOutcome episode_id ("Merge failed: " ++ pyOptStrRepr mr.error_message) true true
            else
              successOutcome episode_id total_chunks mr
        else
          failOutcome episode_id ("Transcription failed for chunks: " ++
            pyOptNatListRepr (failed.map (fun r => r.chunk_index))) true false

end Orchestration

namespace Orchestration

/-- C1: whenever the transcribe stage's result list contains at least one
segment result with status `"error"`, `transcribe_episode` returns status
`"failed"` and the merge collaborator is never invoked — a partial
transcript is never published as complete. -/
theorem pipeline_segment_error_blocks_merge (env : OrchEnv) (eid url : String)
    (resp : ChunkResponse)
    (hch : env.chunking = .ok resp) (herr : resp.error = none)
    (hfail : ∃ r ∈ transcribe_chunks_parallel env.whisper eid resp.chunks,
      r.status = some "error") :
    (transcribe_episode env eid url).result.status = "failed" ∧
    (transcribe_episode env eid url).mergeInvoked = false := by
  obtain ⟨r, hr, hs⟩ := hfail
  have hchunks : resp.chunks.isEmpty = false := by
    cases hc : resp.chunks with
    | nil =>
      rw [hc] at hr
      simp [transcribe_chunks_parallel, transcribeChunksFrom] at hr
    | cons a l => rfl
  have hmem : r ∈ (transcribe_chunks_parallel env.whisper eid resp.chunks).filter
      (fun r => r.status == some "error") :=
    List.mem_filter.mpr ⟨hr, by simp [hs]⟩
  have hfiltered : ((transcribe_chunks_parallel env.whisper eid resp.chunks).filter
      (fun r => r.status == some "error")).isEmpty = false := by
    cases hfc : (transcribe_chunks_parallel env.whisper eid resp.chunks).filter
        (fun r => r.status == some "error") with
    | nil => rw [hfc] at hmem; simp at hmem
    | cons a l => rfl
  rw [transcribe_episode, hch]
  simp only [herr, hchunks, hfiltered, Bool.false_eq_true, if_false]
  exact ⟨rfl, rfl⟩

/-- C1 witness chunk list. -/
def c1Chunks : List Chunk := [⟨some 0, some "chunks/ep1/chunk_0.mp3", some 0⟩]

/-- C1 witness environment: chunking succeeds with one chunk, the whisper
call raises, merge would succeed if it were (wrongly) reached. -/
def c1Env : OrchEnv :=
  { s3_audio_bucket := "podcast-audio",
    chunking := .ok ⟨none, c1Chunks, some 1⟩,
    whisper := fun _ => .error "boom",
    merge := fun _ => .ok ⟨some "completed", none, some "transcripts/ep1/final.txt", some 5⟩ }

theorem pipeline_segment_error_blocks_merge_witness :
    (transcribe_episode c1Env "ep1" "http://feed/audio.mp3").result.status = "failed" ∧
    (transcribe_episode c1Env "ep1" "http://feed/audio.mp3").mergeInvoked = false :=
  pipeline_segment_error_blocks_merge c1Env "ep1" "http://feed/audio.mp3"
    ⟨none, c1Chunks, some 1⟩ rfl rfl
    ⟨exceptionRecord "ep1" ⟨some 0, some "chunks/ep1/chunk_0.mp3", some 0⟩ 0 "boom",
      by decide, by decide⟩

/-- C5: if the chunking service reports no error but an empty chunk list,
`transcribe_episode` fails with the no-chunks message and neither the
transcription collaborator nor the merge collaborator is invoked. -/
theorem pipeline_empty_chunks_fails_early (env : OrchEnv) (eid url : String)
    (resp : ChunkResponse)
    (hch : env.chunking = .ok resp) (herr : resp.error = none)
    (hempty : resp.chunks = []) :
    (transcribe_episode env eid url).result.status = "failed" ∧
    (transcribe_episode env eid url).result.error_message =
      some "No chunks returned from chunking service" ∧
    (transcribe_episode env eid url).whisperInvoked = false ∧
    (transcribe_episode env eid url).mergeInvoked = false := by
  rw [transcribe_episode, hch]
  simp only [herr, hempty, List.isEmpty_nil, if_true]
  exact ⟨rfl, rfl, rfl, rfl⟩

/-- C5 witness environment: the chunking service returns zero chunks. -/
def c5Env : OrchEnv :=
  { s3_audio_bucket := "podcast-audio",
    chunking := .ok ⟨none, [], none⟩,
    whisper := fun _ => .ok { status := some "success" },
    merge := fun _ => .ok { status := some "completed" } }

theorem pipeline_empty_chunks_fails_early_witness :
    (transcribe_episode c5Env "ep1" "http://feed/audio.mp3").result.status = "failed" ∧
    (transcribe_episode c5Env "ep1" "http://feed/audio.mp3").result.error_message =
      some "No chunks returned from chunking service" ∧
    (transcribe_episode c5Env "ep1" "http://feed/audio.mp3").whisperInvoked = false ∧
    (transcribe_episode c5Env "ep1" "http://feed/audio.mp3").mergeInvoked = false :=
  pipeline_empty_chunks_fails_early c5Env "ep1" "http://feed/audio.mp3"
    ⟨none, [], none⟩ rfl rfl rfl

theorem transcribeChunksFrom_getElem? (whisper : Chunk → Except String TranscriptionResult)
    (eid : String) :
    ∀ (l : List Chunk) (n i : Nat),
      (transcribeChunksFrom whisper eid n l)[i]? =
        (l[i]?).map (fun c =>
          match whisper c with
          | .ok r => r
          | .error e => exceptionRecord eid c (n + i) e)
  | [], n, i => by simp [transcribeChunksFrom]
  | c :: cs, n, 0 => by simp [transcribeChunksFrom]
  | c :: cs, n, i + 1 => by
    have ih := transcribeChunksFrom_getElem? whisper eid cs (n + 1) i
    simp only [transcribeChunksFrom, List.getElem?_cons_succ, ih]
    have : n + 1 + i = n + (i + 1) := by omega
    rw [this]

/-- C10 (amended): the parallel transcribe stage is total and returns exactly
one result per input chunk, in input order: position `i` holds the whisper
response for chunk `i` when the task returned, and otherwise the error
record with status `"error"`, the chunk's `chunk_index` (or `i` when
absent), and `str(exception)` — which equals the raised exception's message
but is NOT always non-empty (see the counterexample). -/
theorem parallel_stage_total (whisper : Chunk → Except String TranscriptionResult)
    (eid : String) (chunks : List Chunk) :
    (transcribe_chunks_parallel whisper eid chunks).length = chunks.length ∧
    ∀ i : Nat,
      (transcribe_chunks_parallel whisper eid chunks)[i]? =
        (chunks[i]?).map (fun c =>
          match whisper c with
          | .ok r => r
          | .error e => exceptionRecord eid c i e) := by
  constructor
  · induction chunks with
    | nil => rfl
    | cons c cs ih =>
      have h : ∀ (n : Nat) (l : List Chunk),
          (transcribeChunksFrom whisper eid n l).length = l.length := by
        intro n l
        induction l generalizing n with
        | nil => rfl
        | cons d ds ih2 => simp [transcribeChunksFrom, ih2]
      exact h 0 (c :: cs)
  · intro i
    have := transcribeChunksFrom_getElem? whisper eid chunks 0 i
    simpa [transcribe_chunks_parallel] using this

/-- C10 counterexample: a raised exception whose `str` is empty (e.g.
`Exception()`) yields an error record whose `error_message` is the empty
string, so the claim's "non-empty error_message" fails. -/
theorem parallel_stage_empty_error_message :
    ¬ (∀ r ∈ transcribe_chunks_parallel (fun _ => Except.error "") "ep1"
        [⟨some 0, some "chunks/ep1/chunk_0.mp3", some 0⟩],
        ∃ m, r.error_message = some m ∧ m ≠ "") := by
  intro h
  obtain ⟨m, hm, hne⟩ :=
    h (exceptionRecord "ep1" ⟨some 0, some "chunks/ep1/chunk_0.mp3", some 0⟩ 0 "")
      (by decide)
  have : m = "" := by
    simpa [exceptionRecord] using hm.symm
  exact hne this

end Orchestration

namespace BulkService

/-- One entry of a bulk job's `episodes` array (timestamps elided). -/
structure EpisodeEntry where
  episode_id : Option String := none
  title : String
  audio_url : Option String
  status : String
  error_message : Option String := none
deriving DecidableEq

/-- The persisted bulk-job document (timestamps elided). -/
structure BulkJob where
  job_id : String
  status : String
  total_episodes : Nat
  processed_episodes : Nat
  successful_episodes : Nat
  failed_episodes : Nat
  current_episode : Option String
  episodes : List EpisodeEntry
deriving DecidableEq

/-- Apply `f` to the element at position `n` (MongoDB `episodes.n.field`
positional `$set`). -/
def updateAt {α : Type} (f : α → α) : Nat → List α → List α
  | _, [] => []
  | 0, x :: xs => f x :: xs
  | n + 1, x :: xs => x :: updateAt f n xs

/-- The `try` body of one loop iteration: `episode_data.get("audio_url")`
must be truthy (else `ValueError("No audio URL found for episode")`), and
`whisper_service.transcribe_audio_url` must return a truthy transcript
(else `Exception("Transcription returned empty result")`);
`transcribe_audio_url` itself never raises (it returns `None` on failure). -/
def unitOutcome (ep : EpisodeEntry) (transcript : Option String) : Except String String :=
  match ep.audio_url with
  | none => .error "No audio URL found for episode"
  | some u =>
    if u = "" then .error "No audio URL found for episode"
    else
      match transcript with
      | none => .error "Transcription returned empty result"
      | some t => if t = "" then .error "Transcription returned empty result" else .ok t

/-- The `for idx, episode_data in enumerate(episodes)` loop of `process_job`.
`snapshot` is the job document fetched once before the loop (the in-memory
`job` variable, never refreshed inside the loop); `store` is the persisted
document; `cancelled i` is whether the live running flag reads falsy at the
check before unit `i`; `transcripts i` is unit `i`'s transcription result.
On success the code persists `successful_episodes = snapshot's value + 1`
(and symmetrically for failures) — the stale snapshot, not the store. -/
def runEpisodes (snapshot : BulkJob) (transcripts : Nat → Option String)
    (cancelled : Nat → Bool) : Nat → List EpisodeEntry → BulkJob → BulkJob
  | _idx, [], store =>
    { store with status := "completed", current_episode := none }
  | idx, ep :: rest, store =>
    if cancelled idx then
      { store with status := "cancelled" }
    else
      let store1 := { store with current_episode := some ep.title }
      let store2 := { store1 with
        episodes := updateAt (fun e => { e with status := "processing" }) idx store1.episodes }
      match unitOutcome ep (transcripts idx) with
      | .ok _t =>
        let store3 := { store2 with
          episodes := updateAt (fun e => { e with status := "completed" }) idx store2.episodes }
        let store4 := { store3 with
          processed_episodes := idx + 1,
          successful_episodes := snapshot.successful_episodes + 1 }
        runEpisodes snapshot transcripts cancelled (idx + 1) rest store4
      | .error msg =>
        let store3 := { store2 with
          episodes := updateAt (fun e => { e with status := "failed", error_message := some msg })
            idx store2.episodes }
        let store4 := { store3 with
          processed_episodes := idx + 1,
          failed_episodes := snapshot.failed_episodes + 1 }
        runEpisodes snapshot transcripts cancelled (idx + 1) rest store4

/-- `process_job(job_id)`: mark the job running, fetch it once (`job`), and
run the episode loop; the trailing `completed` update happens only when the
loop exhausts all units. -/
def process_job (job0 : BulkJob) (transcripts : Nat → Option String)
    (cancelled : Nat → Bool) : BulkJob :=
  let store0 := { job0 with status := "running" }
  runEpisodes store0 transcripts cancelled 0 store0.episodes store0

/-- `cancel_job(job_id)`: flip the in-memory running flag to `False` and
return `True` when the job is tracked in `running_jobs`; return `False`
otherwise. -/
def cancel_job (running_jobs : List (String × Bool)) (job_id : String) :
    List (String × Bool) × Bool :=
  if (running_jobs.find? (fun p => p.fst == job_id)).isSome then
    (running_jobs.map (fun p => if p.fst == job_id then (p.fst, false) else p), true)
  else
    (running_jobs, false)

theorem cancel_job_not_running (running_jobs : List (String × Bool)) (jid : String)
    (hrun : (running_jobs.find? (fun p => p.fst == jid)).isSome = false) :
    (cancel_job running_jobs jid).snd = false := by
  simp [cancel_job, hrun]

/-- C2 failing input: a job of two episodes, both of which transcribe
successfully. -/
def c2Job : BulkJob :=
  { job_id := "job_1", status := "pending", total_episodes := 2,
    processed_episodes := 0, successful_episodes := 0, failed_episodes := 0,
    current_episode := none,
    episodes :=
      [{ title := "Ep 1", audio_url := some "http://feed/1.mp3", status := "pending" },
       { title := "Ep 2", audio_url := some "http://feed/2.mp3", status := "pending" }] }

/-- C2: `process_job` computes the success/failure counters from the stale
pre-loop `job` snapshot (`job.get("successful_episodes", 0) + 1`), so after
the second successful unit is finalized the persisted record holds
`processed_episodes = 2` but `successful_episodes = 1`, `failed_episodes = 0`:
the invariant `processed = successful + failed` is violated. -/
theorem bulk_counters_break_after_two_successes :
    (process_job c2Job (fun _ => some "transcript text") (fun _ => false)).processed_episodes = 2 ∧
    (process_job c2Job (fun _ => some "transcript text") (fun _ => false)).successful_episodes = 1 ∧
    (process_job c2Job (fun _ => some "transcript text") (fun _ => false)).failed_episodes = 0 ∧
    (process_job c2Job (fun _ => some "transcript text") (fun _ => false)).processed_episodes ≠
      (process_job c2Job (fun _ => some "transcript text") (fun _ => false)).successful_episodes +
      (process_job c2Job (fun _ => some "transcript text") (fun _ => false)).failed_episodes :=
  ⟨rfl, rfl, rfl, by decide⟩

/-- C6: if the cancellation flag flips while unit `A` (index 0) is being
processed (observed falsy at the boundary before unit 1), the loop records
`A`'s outcome (`completed` on success, `failed` on failure), leaves `B` and
`C` exactly as they were (`pending`), and sets the job status to
`cancelled`; and `cancel_job` returns `False` for a job that is not
currently tracked as running. -/
theorem bulk_cancel_between_units (job0 : BulkJob) (a b c : EpisodeEntry)
    (transcripts : Nat → Option String) (cancelled : Nat → Bool)
    (running_jobs : List (String × Bool)) (jid : String)
    (heps : job0.episodes = [a, b, c])
    (hb : b.status = "pending") (hc : c.status = "pending")
    (hc0 : cancelled 0 = false) (hc1 : cancelled 1 = true)
    (hrun : (running_jobs.find? (fun p => p.fst == jid)).isSome = false) :
    (process_job job0 transcripts cancelled).status = "cancelled" ∧
    (∃ a2, (process_job job0 transcripts cancelled).episodes = [a2, b, c] ∧
      (a2.status = "completed" ∨ a2.status = "failed")) ∧
    ((process_job job0 transcripts cancelled).episodes[1]?).map EpisodeEntry.status =
      some "pending" ∧
    ((process_job job0 transcripts cancelled).episodes[2]?).map EpisodeEntry.status =
      some "pending" ∧
    (cancel_job running_jobs jid).snd = false := by
  have hst0 : ({ job0 with status := "running" } : BulkJob).episodes = [a, b, c] := heps
  rw [process_job, hst0]
  cases hO : unitOutcome a (transcripts 0) with
  | ok t =>
    simp only [runEpisodes, hc0, hc1, hO, Bool.false_eq_true, if_false, if_true]
    refine ⟨by trivial, ⟨{ a with status := "completed" }, by simp [updateAt], Or.inl rfl⟩,
      ?_, ?_, ?_⟩
    · simp [updateAt, hb]
    · simp [updateAt, hc]
    · exact cancel_job_not_running running_jobs jid hrun
  | error msg =>
    simp only [runEpisodes, hc0, hc1, hO, Bool.false_eq_true, if_false, if_true]
    refine ⟨by trivial, ⟨{ a with status := "failed", error_message := some msg },
      by simp [updateAt], Or.inr rfl⟩, ?_, ?_, ?_⟩
    · simp [updateAt, hb]
    · simp [updateAt, hc]
    · exact cancel_job_not_running running_jobs jid hrun

/-- C6 witness job: three pending units. -/
def c6Job : BulkJob :=
  { job_id := "job_2", status := "pending", total_episodes := 3,
    processed_episodes := 0, successful_episodes := 0, failed_episodes := 0,
    current_episode := none,
    episodes :=
      [{ title := "A", audio_url := some "http://feed/a.mp3", status := "pending" },
       { title := "B", audio_url := some "http://feed/b.mp3", status := "pending" },
       { title := "C", audio_url := some "http://feed/c.mp3", status := "pending" }] }

theorem bulk_cancel_between_units_witness :
    (process_job c6Job (fun _ => some "text") (fun i => decide (i = 1))).status = "cancelled" ∧
    (∃ a2, (process_job c6Job (fun _ => some "text") (fun i => decide (i = 1))).episodes =
      [a2, { title := "B", audio_url := some "http://feed/b.mp3", status := "pending" },
        { title := "C", audio_url := some "http://feed/c.mp3", status := "pending" }] ∧
      (a2.status = "completed" ∨ a2.status = "failed")) ∧
    ((process_job c6Job (fun _ => some "text") (fun i => decide (i = 1))).episodes[1]?).map
      EpisodeEntry.status = some "pending" ∧
    ((process_job c6Job (fun _ => some "text") (fun i => decide (i = 1))).episodes[2]?).map
      EpisodeEntry.status = some "pending" ∧
    (cancel_job [] "job_2").snd = false :=
  bulk_cancel_between_units c6Job
    { title := "A", audio_url := some "http://feed/a.mp3", status := "pending" }
    { title := "B", audio_url := some "http://feed/b.mp3", status := "pending" }
    { title := "C", audio_url := some "http://feed/c.mp3", status := "pending" }
    (fun _ => some "text") (fun i => decide (i = 1)) [] "job_2"
    rfl rfl rfl rfl rfl rfl

end BulkService

namespace TranscriptionRoutes

/-- The persisted episode document as read by the routes (all fields via
`.get`). -/
structure EpisodeRecord where
  episode_id : String
  audio_url : Option String := none
  transcript_status : Option String := none
  transcript_s3_key : Option String := none
  error_message : Option String := none
deriving DecidableEq

/-- `TranscribeRequest` (pydantic model): `episode_id` plus optional
`audio_url`. -/
structure TranscribeRequest where
  episode_id : String
  audio_url : Option String := none
deriving DecidableEq

/-- `TranscribeResponse` (pydantic model). -/
structure TranscribeResponse where
  status : String
  episode_id : String
  message : String
deriving DecidableEq

/-- One `$set` write these routes perform on the episode document. -/
structure RouteWrite where
  transcript_status : String
  error_message : Option String := none
deriving DecidableEq

/-- A route's outcome: a response together with the episode-document writes
performed synchronously and whether a background transcription task was
scheduled, an `HTTPException`, or an uncaught exception propagating to the
framework (reported by FastAPI as a 500). -/
inductive ApiOutcome where
  | ok (resp : TranscribeResponse) (writes : List RouteWrite) (backgroundScheduled : Bool)
  | httpError (code : Nat) (detail : String)
  | raised (excMessage : String)
deriving DecidableEq

/-- What calling a function from `transcription.py` yields: `get_database`
and the motor collection methods are `async`, so an `await`ed call yields
its value, while a call without `await` (as `transcription.py` does at
lines 50, 54, 104, 107, 129, 132 and 145) yields a coroutine object. -/
inductive PyCallResult where
  | value
  | coroutine
deriving DecidableEq

/-- `db = get_database()` as written in `transcription.py` (lines 50, 104,
129): `get_database` is `async def` (`app/database/mongodb.py`) and the
`await` is missing, so `db` is a coroutine object, not a database handle. -/
def get_database_call : PyCallResult := .coroutine

/-- The message of the `AttributeError` raised by reading attribute `attr`
off a coroutine object. -/
def coroutineAttrError (attr : String) : String :=
  "AttributeError: 'coroutine' object has no attribute '" ++ attr ++ "'"

/-- Python attribute access `db.episodes`: succeeds on a real database
handle, raises `AttributeError` on a coroutine object. -/
def dbEpisodesAttr : PyCallResult → Except String Unit
  | .value => .ok ()
  | .coroutine => .error (coroutineAttrError "episodes")

/-- `start_transcription(request, background_tasks)` as written:
`db = get_database()` (line 50) does not await the `async def`, so line
51's `db.episodes` raises `AttributeError` on every invocation — before the
episode lookup, the status check, or any background scheduling can run.
(Were `db` a real handle, line 54's un-awaited `find_one` would return a
truthy coroutine, the 404 branch would be unreachable, and the first
`episode.get(...)` (line 59 or 64) would raise the analogous
`AttributeError` for `get` — execution never returns a response either
way.) The parameters record the store contents and request the route would
have consulted. -/
def start_transcription (_episode : Option EpisodeRecord) (_req : TranscribeRequest) :
    ApiOutcome :=
  match dbEpisodesAttr get_database_call with
  | .error e => .raised e
  | .ok _ => .raised (coroutineAttrError "get")

/-- `retry_transcription(episode_id)` as written: identical structure —
`db = get_database()` (line 129) is un-awaited, so line 130's `db.episodes`
raises on every invocation; the status-reset `update_one` at line 145 is
never reached (and is itself an un-awaited coroutine), so the `pending`
reset never executes. -/
def retry_transcription (_episode : Option EpisodeRecord) (_episode_id : String) :
    ApiOutcome :=
  match dbEpisodesAttr get_database_call with
  | .error e => .raised e
  | .ok _ => .raised (coroutineAttrError "get")

/-- C9 failing input: a completed episode with a stored transcript key,
re-submitted with its source locator. -/
def c9Episode : EpisodeRecord :=
  { episode_id := "ep9", audio_url := some "http://feed/9.mp3",
    transcript_status := some "completed",
    transcript_s3_key := some "transcripts/ep9/final.txt" }

/-- C9 failing input: the same source locator re-submitted. -/
def c9Request : TranscribeRequest :=
  { episode_id := "ep9", audio_url := some "http://feed/9.mp3" }

/-- C9: the claim fails on the code as written. `transcription.py` never
awaits the `async def get_database` (unlike every other route module, which
uses `Depends(get_database)` or `await`), so `db.episodes` raises
`AttributeError` on every invocation: re-submitting the completed episode
yields an uncaught exception (a 500), never the `already_completed`
response — and `retry_transcription` likewise raises before its
`transcript_status = "pending"` reset write could execute, so neither route
ever performs a write or schedules a task. -/
theorem start_transcription_always_raises :
    start_transcription (some c9Episode) c9Request =
      .raised "AttributeError: 'coroutine' object has no attribute 'episodes'" ∧
    (∀ resp writes scheduled,
      start_transcription (some c9Episode) c9Request ≠ .ok resp writes scheduled) ∧
    (∀ episode req, start_transcription episode req =
      .raised "AttributeError: 'coroutine' object has no attribute 'episodes'") ∧
    (∀ episode eid, retry_transcription episode eid =
      .raised "AttributeError: 'coroutine' object has no attribute 'episodes'") := by
  refine ⟨rfl, ?_, fun _ _ => rfl, fun _ _ => rfl⟩
  intro resp writes scheduled h
  exact ApiOutcome.noConfusion h

end TranscriptionRoutes
